import Mathlib

/-!
Shallow embedding of the neural-network engine of the repository
(`evolutionary_robots/neural_networks/layers.py` and
`evolutionary_robots/neural_networks/ann.py`).

Numeric vectors are lists of rationals; numpy vector and matrix operations are
translated pointwise.  Python exceptions are modelled with `Except PyErr`: a
class of runtime error the source can raise is one constructor of `PyErr`.
Values produced by `np.random.rand` are supplied by an explicit generator
parameter (`RNG`), since no claim depends on the generated values, only on
their shapes.
-/

/-- The kinds of Python runtime error the translated code can raise, plus
`outOfFuel`, the out-of-fuel marker used for the two unbounded `while` loops of
`ArtificialNeuralNetwork._construct_graph`. -/
inductive PyErr where
  | nameError
  | valueError
  | typeError
  | keyError
  | indexError
  | configError (layer : String)
  | outOfFuel
  deriving DecidableEq, Repr

/-- Dot product of two rational vectors (`np.dot` on two 1-d arrays). -/
def dotProd (a b : List ℚ) : ℚ :=
  (List.zipWith (fun x y => x * y) a b).sum

/-- Matrix-vector product (`np.dot` of a 2-d array with a 1-d array): one dot
product per matrix row. -/
def matVec (m : List (List ℚ)) (x : List ℚ) : List ℚ :=
  m.map (fun row => dotProd row x)

/-- Elementwise vector addition (`np.add` on two vectors of the same shape). -/
def vecAdd (a b : List ℚ) : List ℚ :=
  List.zipWith (fun x y => x + y) a b

/-- Zero vector, `np.zeros((n,))`. -/
def zeros (n : Nat) : List ℚ :=
  List.replicate n 0

/-- Modelled from the spec: the `activation_functions.ActivationFunction`
class imported by `layers.py` is not under `src/`.  The spec describes it as a
capability that, given a numeric vector and two scalar parameters (gain and
bias), returns an activated vector, with getters and setters for the two
parameters.  `fn` is the pointwise activation, applied with the current gain
`beta` and bias `theta`. -/
structure ActivationFunction where
  beta : ℚ
  theta : ℚ
  fn : ℚ → ℚ → ℚ → ℚ

/-- Modelled from the spec: apply the activation elementwise with the current
parameters. -/
def ActivationFunction.calculate_activation (af : ActivationFunction) (v : List ℚ) : List ℚ :=
  v.map (af.fn af.beta af.theta)

/-- Modelled from the spec: the two activation parameters as the pair
(gain, bias), in the order `return_parameters` serializes them. -/
def ActivationFunction.get_parameters (af : ActivationFunction) : List ℚ :=
  [af.beta, af.theta]

/-- Modelled from the spec: replace the two activation parameters. -/
def ActivationFunction.set_parameters (af : ActivationFunction) (beta theta : ℚ) :
    ActivationFunction :=
  { af with beta := beta, theta := theta }

/-- An identity activation used by the concrete networks below. -/
def idAF : ActivationFunction :=
  { beta := 1, theta := 0, fn := fun _ _ x => x }

/-- Supplier of the values of `np.random.rand`: `mat o i` stands for
`np.random.rand(o, i)` and `vec o` for `np.random.rand(o)`.  The shapes those
numpy calls guarantee are taken as hypotheses where a theorem needs them. -/
structure RNG where
  mat : Nat → Nat → List (List ℚ)
  vec : Nat → List ℚ

/-- A generator whose random values are all zero (shapes are exact). -/
def zeroRNG : RNG :=
  { mat := fun o i => List.replicate o (List.replicate i 0),
    vec := fun o => List.replicate o 0 }

/-- A generator whose random matrix entries are all one and random bias
entries are all zero (shapes are exact). -/
def oneRNG : RNG :=
  { mat := fun o i => List.replicate o (List.replicate i 1),
    vec := fun o => List.replicate o 0 }

/-- `layers.StaticLayer`: name, dimensions, weight matrix of shape
(output_dim, input_dim), bias vector of length output_dim, and the activation
function object. -/
structure StaticLayer where
  layer_name : String
  weight_dim : Nat × Nat
  bias_dim : Nat
  weight_matrix : List (List ℚ)
  bias_vector : List ℚ
  activation_function : ActivationFunction

/-- `StaticLayer.__init__`: random weights of shape (output_dim, input_dim),
random bias of length output_dim. -/
def mkStaticLayer (rng : RNG) (input_dim output_dim : Nat) (af : ActivationFunction)
    (name : String) : StaticLayer :=
  { layer_name := name,
    weight_dim := (output_dim, input_dim),
    bias_dim := output_dim,
    weight_matrix := rng.mat output_dim input_dim,
    bias_vector := rng.vec output_dim,
    activation_function := af }

/-- `StaticLayer.forward_propagate` (layers.py lines 98-144): reject an input
whose length differs from the declared input dimension with `ValueError`, else
return `activation(W.x + b)`. -/
def StaticLayer.forward_propagate (l : StaticLayer) (input_vector : List ℚ) :
    Except PyErr (List ℚ) :=
  if input_vector.length ≠ l.weight_dim.2 then .error .valueError
  else .ok (l.activation_function.calculate_activation
    (vecAdd (matVec l.weight_matrix input_vector) l.bias_vector))

/-- `StaticLayer.update_parameters` (layers.py lines 147-205).  Before its
`try` block the source executes `bias_interval = bias_dim[0]`; the name
`bias_dim` is unbound (the `self.` prefix is missing and no global of that name
exists), so every call raises `NameError` before the parameter vector is ever
inspected.  The two statements before it only bind locals. -/
def StaticLayer.update_parameters (_l : StaticLayer) (_parameter_vector : List ℚ) :
    Except PyErr StaticLayer :=
  Except.error PyErr.nameError

/-- `StaticLayer.return_parameters` (layers.py lines 208-252): row-major
weights, then the bias, then the activation parameters (gain, bias). -/
def StaticLayer.return_parameters (l : StaticLayer) : List ℚ :=
  l.weight_matrix.flatten ++ l.bias_vector ++ l.activation_function.get_parameters

/-- `layers.TimeDelay`: weight vector of shape (1, delay_dim) and sliding
input window of shape (delay_dim, input_dim). -/
structure TimeDelay where
  weight_dim : Nat × Nat
  input_matrix_dim : Nat × Nat
  weight_vector : List (List ℚ)
  input_matrix : List (List ℚ)

/-- `TimeDelay.__init__`: random weight vector, zero-initialized window. -/
def mkTimeDelay (rng : RNG) (input_dim delay_dim : Nat) : TimeDelay :=
  { weight_dim := (1, delay_dim),
    input_matrix_dim := (delay_dim, input_dim),
    weight_vector := rng.mat 1 delay_dim,
    input_matrix := List.replicate delay_dim (List.replicate input_dim 0) }

/-- `layers.TimeRecurrence`: weight matrix of shape (output_dim, input_dim)
and the stored input vector pushed in by the owning layer. -/
structure TimeRecurrence where
  weight_dim : Nat × Nat
  weight_matrix : List (List ℚ)
  input_vector : List ℚ

/-- `TimeRecurrence.__init__` (layers.py lines 463-471): random weights of
shape (output_dim, input_dim); the stored input vector is initialized to
`np.zeros((input_dim,))`. -/
def mkTimeRecurrence (rng : RNG) (input_dim output_dim : Nat) : TimeRecurrence :=
  { weight_dim := (output_dim, input_dim),
    weight_matrix := rng.mat output_dim input_dim,
    input_vector := zeros input_dim }

/-- `TimeRecurrence.forward_propagate` (layers.py lines 474-478): no argument;
replays `W . stored_input`. -/
def TimeRecurrence.forward_propagate (t : TimeRecurrence) : List ℚ :=
  matVec t.weight_matrix t.input_vector

/-- `TimeRecurrence.set_input_vector`: dimension-checked store of the input. -/
def TimeRecurrence.set_input_vector (t : TimeRecurrence) (input_vector : List ℚ) :
    Except PyErr TimeRecurrence :=
  if input_vector.length ≠ t.weight_dim.2 then .error .valueError
  else .ok { t with input_vector := input_vector }

/-- `layers.DynamicLayer`: static weights and bias plus one TimeDelay and a
list of TimeRecurrence subsystems. -/
structure DynamicLayer where
  layer_name : String
  weight_dim : Nat × Nat
  bias_dim : Nat
  weight_matrix : List (List ℚ)
  bias_vector : List ℚ
  delay_system : TimeDelay
  recurrent_system : List TimeRecurrence
  activation_function : ActivationFunction

/-- `DynamicLayer.return_parameters` (layers.py lines 746-792).  The source
builds the concatenation of delay, recurrent, static, bias and activation
parameters into the local `output`, but the method body has no `return`
statement, so the call returns `None`. -/
def DynamicLayer.return_parameters (_l : DynamicLayer) : Option (List ℚ) :=
  none

/-- `layers.CTRNNLayer`: weights, bias, per-neuron time constants, the derived
`time_weight = time_interval / time_constant`, and the stored previous output
of the Euler integration. -/
structure CTRNNLayer where
  layer_name : String
  weight_dim : Nat × Nat
  bias_dim : Nat
  time_dim : Nat
  weight_matrix : List (List ℚ)
  bias_vector : List ℚ
  time_interval : ℚ
  time_constant : List ℚ
  time_weight : List ℚ
  activation_function : ActivationFunction
  previous_output : List ℚ

/-- `CTRNNLayer.__init__` (layers.py lines 995-1024): compute
`time_weight = time_interval / time_constant` elementwise, raise `ValueError`
when its shape differs from (output_dim,), and start with a zero previous
output. -/
def mkCTRNNLayer (rng : RNG) (input_dim output_dim : Nat) (time_interval : ℚ)
    (time_constant : List ℚ) (af : ActivationFunction) (name : String) :
    Except PyErr CTRNNLayer :=
  let time_weight := time_constant.map (fun tc => time_interval / tc)
  if time_weight.length ≠ output_dim then .error .valueError
  else .ok
    { layer_name := name,
      weight_dim := (output_dim, input_dim),
      bias_dim := output_dim,
      time_dim := output_dim,
      weight_matrix := rng.mat output_dim input_dim,
      bias_vector := rng.vec output_dim,
      time_interval := time_interval,
      time_constant := time_constant,
      time_weight := time_weight,
      activation_function := af,
      previous_output := zeros output_dim }

/-- Elementwise combination of three equal-length vectors, used for the numpy
expression `prev * (1 - tw) + act * tw` of `euler_step`. -/
def zipWith3Q (f : ℚ → ℚ → ℚ → ℚ) : List ℚ → List ℚ → List ℚ → List ℚ
  | a :: ta, b :: tb, c :: tc => f a b c :: zipWith3Q f ta tb tc
  | _, _, _ => []

/-- The `current_output` expression of `CTRNNLayer.euler_step`:
`activated = activation(W.x + b)` and then, elementwise,
`previous_output * (1 - time_weight) + activated * time_weight`. -/
def CTRNNLayer.eulerOut (l : CTRNNLayer) (input_vector : List ℚ) : List ℚ :=
  zipWith3Q (fun prev tw act => prev * (1 - tw) + act * tw)
    l.previous_output l.time_weight
    (l.activation_function.calculate_activation
      (vecAdd (matVec l.weight_matrix input_vector) l.bias_vector))

/-- `CTRNNLayer.euler_step` (layers.py lines 1027-1075): dimension check, then
the Euler update `eulerOut`; the output is stored as the previous output of
the returned layer state. -/
def CTRNNLayer.euler_step (l : CTRNNLayer) (input_vector : List ℚ) :
    Except PyErr (List ℚ × CTRNNLayer) :=
  if input_vector.length ≠ l.weight_dim.2 then .error .valueError
  else .ok (l.eulerOut input_vector, { l with previous_output := l.eulerOut input_vector })

/-- `CTRNNLayer.update_parameters` (layers.py lines 1078-1143).  As in the
StaticLayer case, the statement `bias_interval = bias_dim[0]` before the `try`
block reads the unbound name `bias_dim`, so every call raises `NameError`. -/
def CTRNNLayer.update_parameters (_l : CTRNNLayer) (_parameter_vector : List ℚ) :
    Except PyErr CTRNNLayer :=
  Except.error PyErr.nameError

/-- Layer kind tag, `layer[2]` of the 7-tuple layer specification. -/
inductive Kind where
  | STATIC
  | DYNAMIC
  | CTRNN
  | RBF
  deriving DecidableEq, Repr

/-- One entry of the `layer_vector` handed to `ArtificialNeuralNetwork`: the
7-tuple (name, size, kind, activation, sensor tag, outputs,
delayed subset of outputs), indices 0 to 6 in the source. -/
structure LayerSpec where
  name : String
  size : Nat
  kind : Kind
  activation : ActivationFunction
  sensor_tag : String
  outputs : List String
  delayed_outputs : List String

/-- Python `dict` lookup, `m[k]`, as an option: insertion-ordered association
list with unique keys (the insert below keeps keys unique). -/
def alFind {α : Type} : List (String × α) → String → Option α
  | [], _ => none
  | p :: rest, k => if p.1 = k then some p.2 else alFind rest k

/-- Python `k in m` on a dict. -/
def alMem {α : Type} (m : List (String × α)) (k : String) : Bool :=
  (alFind m k).isSome

/-- Python `m[k] = v` on a dict: overwrite in place keeping the original
insertion position, else append at the end. -/
def alInsert {α : Type} : List (String × α) → String → α → List (String × α)
  | [], k, v => [(k, v)]
  | p :: rest, k, v => if p.1 = k then (k, v) :: rest else p :: alInsert rest k v

/-- Python `m.get(k, d)`-style lookup with a default. -/
def alGetD {α : Type} (m : List (String × α)) (k : String) (d : α) : α :=
  (alFind m k).getD d

/-- Python `m[k]` where a missing key raises `KeyError`. -/
def dlookup {α : Type} (m : List (String × α)) (k : String) : Except PyErr α :=
  match alFind m k with
  | some v => .ok v
  | none => .error .keyError

/-- The three dictionaries built by the first loop of
`ArtificialNeuralNetwork._construct_layers` (ann.py lines 155-170):
`neuron_map` (name to size), `output_connections` (name to `layer[5]`) and
`input_connections` (target to the list of (source, source declares the target
delayed) pairs, appended in declaration order). -/
structure Conns where
  neuron_map : List (String × Nat)
  output_connections : List (String × List String)
  input_connections : List (String × List (String × Bool))

/-- First loop of `_construct_layers`: record forward edges and invert them
into reverse input-connection lists annotated with the delay flag
(`output_layer in layer[6]`). -/
def buildConnections (specs : List LayerSpec) : Conns :=
  specs.foldl
    (fun acc layer =>
      { neuron_map := alInsert acc.neuron_map layer.name layer.size,
        output_connections := alInsert acc.output_connections layer.name layer.outputs,
        input_connections := layer.outputs.foldl
          (fun ic t =>
            alInsert ic t (alGetD ic t [] ++ [(layer.name, layer.delayed_outputs.contains t)]))
          acc.input_connections })
    { neuron_map := [], output_connections := [], input_connections := [] }

/-- The inner loop `for connection in input_connections[name]:
input_dimension += neuron_map[connection[0]]`; `none` when some source is
missing from the neuron map (then the bare `except` of the source would fire). -/
def sumSources (neuron_map : List (String × Nat)) : List (String × Bool) → Option Nat
  | [] => some 0
  | c :: rest =>
    match alFind neuron_map c.1, sumSources neuron_map rest with
    | some n, some m => some (n + m)
    | _, _ => none

/-- Input-dimension computation of the STATIC and DYNAMIC branches of
`_construct_layers` (ann.py lines 177-187): a layer without an
input-connection entry (or whose sum fails, through the bare `except`) is an
input layer with input dimension equal to its own size; otherwise the input
dimension is the sum of the sizes of all upstream sources, in declaration
order.  The boolean is the input-layer flag. -/
def staticInputInfo (cs : Conns) (name : String) (size : Nat) : Nat × Bool :=
  match alFind cs.input_connections name with
  | none => (size, true)
  | some conns =>
    match sumSources cs.neuron_map conns with
    | some d => (d, false)
    | none => (size, true)

/-- Accumulator of the layer-generation loop of `_construct_layers`:
`layer_map`, `input_layers` and `level_vector[0]`. -/
structure LayerGen where
  layer_map : List (String × StaticLayer)
  input_layers : List String
  level_zero : List String

/-- Layer-generation loop of `_construct_layers` (ann.py lines 174-219).
Only the STATIC and DYNAMIC kinds have a branch; a CTRNN or RBF spec matches
neither and is silently skipped, leaving no layer instance.  The DYNAMIC
branch calls `DynamicLayer(input_dimension, output_dimension,
activation_function, self.__time_interval, np.ones((output_dimension,)),
layer[0])`, but the constructor signature is `(input_dim, output_dim,
delay_dim, recurrent_dim, activation_function, layer_name)`: the activation
object arrives as `delay_dim` and `np.random.rand(1, delay_dim)` inside
`TimeDelay.__init__` raises `TypeError`, so construction of any network with a
DYNAMIC spec fails.  `genStepStatic` is the body of the STATIC branch: record
the input-layer classification and insert the new StaticLayer. -/
def genStepStatic (rng : RNG) (cs : Conns) (layer : LayerSpec) (acc : LayerGen) : LayerGen :=
  let info := staticInputInfo cs layer.name layer.size
  let acc1 :=
    if info.2 then
      { acc with
        input_layers := acc.input_layers ++ [layer.name],
        level_zero := acc.level_zero ++ [layer.name] }
    else acc
  { acc1 with
    layer_map := alInsert acc1.layer_map layer.name
      (mkStaticLayer rng info.1 layer.size layer.activation layer.name) }

/-- The layer-generation loop itself (see the comment on `genStepStatic`). -/
def genLayers (rng : RNG) (cs : Conns) : List LayerSpec → LayerGen → Except PyErr LayerGen
  | [], acc => .ok acc
  | layer :: rest, acc =>
    match layer.kind with
    | Kind.STATIC => genLayers rng cs rest (genStepStatic rng cs layer acc)
    | Kind.DYNAMIC => .error .typeError
    | _ => genLayers rng cs rest acc

/-- The network state `_construct_layers` leaves behind. -/
structure ANN where
  number_of_layers : Nat
  order_of_execution : List LayerSpec
  conns : Conns
  layer_map : List (String × StaticLayer)
  input_layers : List String
  level_zero : List String
  output_layers : List String

/-- `ArtificialNeuralNetwork._construct_layers` (ann.py lines 125-227):
connection dictionaries, layer generation, then the terminal (hardware) sinks:
every key of `input_connections` that is not a declared layer name. -/
def constructLayers (rng : RNG) (specs : List LayerSpec) : Except PyErr ANN :=
  let cs := buildConnections specs
  match genLayers rng cs specs { layer_map := [], input_layers := [], level_zero := [] } with
  | .error e => .error e
  | .ok g =>
    let output_layers := (cs.input_connections.map Prod.fst).filter
      (fun k => !(alMem cs.output_connections k))
    .ok { number_of_layers := specs.length,
          order_of_execution := specs,
          conns := cs,
          layer_map := g.layer_map,
          input_layers := g.input_layers,
          level_zero := g.level_zero,
          output_layers := output_layers }

/-- Mutable state of `_construct_graph` (ann.py lines 230-379): the level
vector, the set of layers with an `output_matrix` entry (in insertion order),
the `layers_done` dictionary, the `layers_generated` counter, and — as a ghost
observation the source does not store — the list of (source, target)
connections that were deadlock-resolved against the state matrix. -/
structure GraphState where
  level_vector : List (List String)
  output_matrix : List String
  layers_done : List (String × Bool)
  layers_generated : Nat
  resolved_edges : List (String × String)
  deriving DecidableEq, Repr

/-- Read-only context of `_construct_graph`, extracted from the constructed
network: `state_keys` are the keys of the state matrix (every declared layer
name) and `layer_keys` the keys of `layer_map`. -/
structure GraphCtx where
  number_of_layers : Nat
  input_connections : List (String × List (String × Bool))
  output_connections : List (String × List String)
  input_layers : List String
  output_layers : List String
  layer_keys : List String
  state_keys : List String

/-- Context extraction from the constructed network. -/
def ANN.toCtx (ann : ANN) : GraphCtx :=
  { number_of_layers := ann.number_of_layers,
    input_connections := ann.conns.input_connections,
    output_connections := ann.conns.output_connections,
    input_layers := ann.input_layers,
    output_layers := ann.output_layers,
    layer_keys := ann.layer_map.map Prod.fst,
    state_keys := ann.order_of_execution.map LayerSpec.name }

/-- `layers_done[k] = True` (dict assignment creates the key if missing). -/
def markDone (done : List (String × Bool)) (k : String) : List (String × Bool) :=
  alInsert done k true

/-- The `try: level_vector[current_level + 1].append(c) except:
level_vector.append([]); level_vector[current_level + 1].append(c)` idiom
(ann.py lines 324-328 and 370-374): append in place when the next level
exists, create it when it is exactly one past the end, and raise `IndexError`
otherwise (unreachable in practice). -/
def appendNextLevel (st : GraphState) (current_level : Nat) (c : String) :
    Except PyErr GraphState :=
  if current_level + 1 < st.level_vector.length then
    let extended := st.level_vector.getD (current_level + 1) [] ++ [c]
    .ok { st with level_vector := st.level_vector.set (current_level + 1) extended }
  else if current_level + 1 = st.level_vector.length then
    .ok { st with level_vector := st.level_vector ++ [[c]] }
  else .error .indexError

/-- The `output_matrix[layer] = tf.numpy_function(layer_map[layer]...)`
assignment plus `layers_generated += 1`: a missing `layer_map` entry (a
skipped CTRNN/RBF spec) raises `KeyError`.  Membership in `output_matrix` is
recorded once; re-generation overwrites the entry but still increments the
counter. -/
def generateLayer (ctx : GraphCtx) (st : GraphState) (layer : String) :
    Except PyErr GraphState :=
  if layer ∈ ctx.layer_keys then
    .ok { st with
      output_matrix :=
        if layer ∈ st.output_matrix then st.output_matrix else st.output_matrix ++ [layer],
      layers_generated := st.layers_generated + 1 }
  else .error .keyError

/-- The next-level insertion loop of the main path (ann.py lines 321-330):
skip hardware sinks, skip layers already done, otherwise append to the next
level and mark done. -/
def pushOutputsDone (ctx : GraphCtx) (current_level : Nat) (st : GraphState)
    (outs : List String) : Except PyErr GraphState :=
  outs.foldlM
    (fun s c =>
      if c ∈ ctx.output_layers then pure s
      else do
        let b ← dlookup s.layers_done c
        if b then pure s
        else do
          let s1 ← appendNextLevel s current_level c
          pure { s1 with layers_done := markDone s1.layers_done c })
    st

/-- The connection loop of the main path (ann.py lines 298-309): a delayed
connection reads the state matrix (KeyError when the source is not a declared
layer); a non-delayed connection whose source has no `output_matrix` entry
appends the layer to `new_error_queue` once per failing connection and
continues.  The result is that number of failures. -/
def countFailures (ctx : GraphCtx) (st : GraphState) :
    List (String × Bool) → Except PyErr Nat
  | [] => .ok 0
  | c :: rest =>
    if c.2 then
      if c.1 ∈ ctx.state_keys then countFailures ctx st rest else .error .keyError
    else if c.1 ∈ st.output_matrix then countFailures ctx st rest
    else (countFailures ctx st rest).map (fun n => n + 1)

/-- One layer of the main pass (ann.py lines 284-330).  An input layer is
always generated.  A non-input layer appends itself to the shared
`new_error_queue` once per unresolved non-delayed connection; generation then
happens only when the whole shared queue is still empty — a layer whose inputs
are all resolved is skipped (and dropped) whenever an earlier layer of the
same pass failed, because the guard tests the global queue. -/
def mainPassLayer (ctx : GraphCtx) (current_level : Nat)
    (acc : GraphState × List String) (layer : String) :
    Except PyErr (GraphState × List String) := do
  let (st, neq) := acc
  if layer ∈ ctx.input_layers then do
    let st1 ← generateLayer ctx st layer
    let outs ← dlookup ctx.output_connections layer
    let st2 ← pushOutputsDone ctx current_level st1 outs
    pure (st2, neq)
  else do
    let conns ← dlookup ctx.input_connections layer
    let k ← countFailures ctx st conns
    let neq1 := neq ++ List.replicate k layer
    if neq1.isEmpty then do
      let st1 ← generateLayer ctx st layer
      let outs ← dlookup ctx.output_connections layer
      let st2 ← pushOutputsDone ctx current_level st1 outs
      pure (st2, neq1)
    else pure (st, neq1)

/-- One pass of the inner `while` over the current error queue, starting from
a fresh `new_error_queue`. -/
def mainPass (ctx : GraphCtx) (current_level : Nat) (queue : List String)
    (st : GraphState) : Except PyErr (GraphState × List String) :=
  queue.foldlM (mainPassLayer ctx current_level) (st, [])

/-- One connection of the deadlock-resolution block (ann.py lines 350-359): a
delayed connection reads the state matrix; a non-delayed connection falls back
to the state matrix when the source has no `output_matrix` entry — that
fallback is recorded as a deadlock-resolved edge. -/
def fallbackConn (ctx : GraphCtx) (layer : String) (s : GraphState) (c : String × Bool) :
    Except PyErr GraphState :=
  if c.2 then
    if c.1 ∈ ctx.state_keys then .ok s else .error .keyError
  else if c.1 ∈ s.output_matrix then .ok s
  else if c.1 ∈ ctx.state_keys then
    .ok { s with resolved_edges := s.resolved_edges ++ [(c.1, layer)] }
  else .error .keyError

/-- One layer of the deadlock-resolution block (ann.py lines 336-374): the
layer is generated unconditionally, and its outgoing connections are pushed to
the next level *without* the `layers_done` guard of the main path and without
marking them done. -/
def fallbackLayer (ctx : GraphCtx) (current_level : Nat) (st : GraphState)
    (layer : String) : Except PyErr GraphState := do
  let st1 ←
    if layer ∈ ctx.input_layers then pure st
    else do
      let conns ← dlookup ctx.input_connections layer
      conns.foldlM (fallbackConn ctx layer) st
  let st2 ← generateLayer ctx st1 layer
  let outs ← dlookup ctx.output_connections layer
  outs.foldlM
    (fun s c =>
      if c ∈ ctx.output_layers then pure s
      else appendNextLevel s current_level c)
    st2

/-- The inner `while(len(error_queue) != 0)` loop (ann.py lines 281-377): run
a main pass; when the new error queue equals the old one (Python list
equality), run the deadlock-resolution block over the old queue and exit (the
new queue was reset to empty); otherwise continue with the new queue.  `fuel`
bounds the number of iterations of this unbounded loop. -/
def innerLoop (ctx : GraphCtx) (current_level : Nat) :
    Nat → List String → GraphState → Except PyErr GraphState
  | _, [], st => .ok st
  | 0, _, _ => .error .outOfFuel
  | fuel + 1, queue, st => do
    let (st1, neq) ← mainPass ctx current_level queue st
    if neq = queue then
      queue.foldlM (fallbackLayer ctx current_level) st1
    else
      innerLoop ctx current_level fuel neq st1

/-- The outer `while layers_generated != number_of_layers` loop (ann.py lines
272-379): take the current level as the error queue (IndexError when the level
vector has no such index), tick its layers done, run the inner loop, move to
the next level. -/
def outerLoop (ctx : GraphCtx) : Nat → Nat → GraphState → Except PyErr GraphState
  | 0, _, st =>
    if st.layers_generated = ctx.number_of_layers then .ok st else .error .outOfFuel
  | fuel + 1, current_level, st =>
    if st.layers_generated = ctx.number_of_layers then .ok st
    else
      match st.level_vector[current_level]? with
      | none => .error .indexError
      | some queue => do
        let st0 := { st with layers_done := queue.foldl markDone st.layers_done }
        let st1 ← innerLoop ctx current_level (fuel + 1) queue st0
        outerLoop ctx fuel (current_level + 1) st1

/-- The graph state at entry of `_construct_graph`: the level vector holds
level 0 as filled by `_construct_layers`, nothing is generated, every declared
layer is not done. -/
def initialGraphState (ann : ANN) : GraphState :=
  { level_vector := [ann.level_zero],
    output_matrix := [],
    layers_done := (ann.order_of_execution.map LayerSpec.name).map (fun n => (n, false)),
    layers_generated := 0,
    resolved_edges := [] }

/-- `ArtificialNeuralNetwork._construct_graph`, with fuel for its two
unbounded loops. -/
def constructGraph (ann : ANN) (fuel : Nat) : Except PyErr GraphState :=
  outerLoop ann.toCtx fuel 0 (initialGraphState ann)

/-- Full network construction: `_construct_layers` then `_construct_graph`,
as run by `ArtificialNeuralNetwork.__init__`. -/
def buildNetworkGraph (rng : RNG) (specs : List LayerSpec) (fuel : Nat) :
    Except PyErr GraphState :=
  (constructLayers rng specs).bind (fun ann => constructGraph ann fuel)

/-- The sensor-input collection loop of
`ArtificialNeuralNetwork.forward_propagate` (ann.py lines 411-418), keyed here
by layer name (one placeholder per layer in the source): for every declared
layer, the fed value is `input_dict[layer[4]]` — the lookup key is the SENSOR
TAG, index 4 of the spec, not the layer name — and the bare `except` turns any
missing tag into `np.zeros((neuron_map[layer[0]],))`. -/
def gatherSensorInputs (specs : List LayerSpec) (input_dict : List (String × List ℚ)) :
    List (String × List ℚ) :=
  specs.map
    (fun layer =>
      (layer.name,
        match alFind input_dict layer.sensor_tag with
        | some v => v
        | none => zeros layer.size))

/-- The per-sink collection loop of `forward_propagate` (ann.py lines
436-445), written over the list of contributing connections with the running
`output_vector` (initially `None`).  For the first contributor the guard
`if output_vector == None` is `True` and the vector is stored.  For any later
contributor the guard is a numpy elementwise comparison — `False` for a
size-one array, `ValueError` (ambiguous truth value) for a larger one — and
the `else` branch runs `np.sum(output_vector, output[...])`, which passes the
second array as the `axis` argument and raises `TypeError`; every such error
is caught by the bare `except` and re-raised as the configuration `Exception`
for the sink.  A missing `output` entry takes the same path.  Hence a second
contributor always raises the configuration error for the sink. -/
def assembleSinkOutput (sink : String) (output : List (String × List ℚ)) :
    Option (List ℚ) → List (String × Bool) → Except PyErr (Option (List ℚ))
  | acc, [] => .ok acc
  | none, c :: rest =>
    match alFind output c.1 with
    | some v => assembleSinkOutput sink output (some v) rest
    | none => .error (.configError sink)
  | some _, _ :: _ => .error (.configError sink)

/-- Terminal-output assembly of `forward_propagate` (ann.py lines 434-449):
one entry per terminal (hardware) sink, collected from the input connections
of that sink over the `output` dictionary of this tick. -/
def assembleTerminalOutputs (output_layers : List String)
    (input_connections : List (String × List (String × Bool)))
    (output : List (String × List ℚ)) :
    Except PyErr (List (String × Option (List ℚ))) :=
  output_layers.foldlM
    (fun acc layer => do
      let conns ← dlookup input_connections layer
      let v ← assembleSinkOutput layer output none conns
      pure (acc ++ [(layer, v)]))
    []

/-- The index loop of `ArtificialNeuralNetwork.return_parameters_as_vector`
(ann.py lines 499-503): the key is the literal string `layer_` followed by the
index — the source assumes every layer is named that way — and a key that is
not an input layer but has no `layer_map` entry raises `KeyError`. -/
def rpavLoop (ann : ANN) : List Nat → List (String × List ℚ) →
    Except PyErr (List (String × List ℚ))
  | [], acc => .ok acc
  | index :: rest, acc =>
    let layer_key := "layer_" ++ toString index
    if layer_key ∈ ann.input_layers then rpavLoop ann rest acc
    else
      match alFind ann.layer_map layer_key with
      | some l => rpavLoop ann rest (acc ++ [(layer_key, l.return_parameters)])
      | none => .error .keyError

/-- `ArtificialNeuralNetwork.return_parameters_as_vector` (ann.py lines
473-505). -/
def return_parameters_as_vector (ann : ANN) : Except PyErr (List (String × List ℚ)) :=
  rpavLoop ann (List.range ann.number_of_layers) []

/-- Written from the spec sentence for C9: the mapping
`return_parameters_as_vector` is supposed to produce — one entry per
`layer_<index>` name that is not an input layer, valued at the flat
parameter vector. -/
def expectedParamsMap (ann : ANN) : List (String × List ℚ) :=
  (List.range ann.number_of_layers).filterMap
    (fun index =>
      let layer_key := "layer_" ++ toString index
      if layer_key ∈ ann.input_layers then none
      else (alFind ann.layer_map layer_key).map (fun l => (layer_key, l.return_parameters)))

/-- Concrete network for C1: input layer A feeds X and Y; X has a non-delayed
self-loop and feeds the hardware sink OUT; Y feeds OUT. -/
def c1Specs : List LayerSpec :=
  [ { name := "A", size := 1, kind := .STATIC, activation := idAF, sensor_tag := "",
      outputs := ["X", "Y"], delayed_outputs := [] },
    { name := "X", size := 1, kind := .STATIC, activation := idAF, sensor_tag := "",
      outputs := ["X", "OUT"], delayed_outputs := [] },
    { name := "Y", size := 1, kind := .STATIC, activation := idAF, sensor_tag := "",
      outputs := ["OUT"], delayed_outputs := [] } ]

/-- Concrete StaticLayer for the C2 witness: 1 output, 2 inputs, weights
[[1, 1]], bias [0], identity activation. -/
def c2Layer : StaticLayer :=
  { layer_name := "L2", weight_dim := (1, 2), bias_dim := 1,
    weight_matrix := [[1, 1]], bias_vector := [0], activation_function := idAF }

/-- Concrete CTRNN layer of the C3 scenario: one neuron, time constants [1],
time interval 1/2 (so time weight [1/2]), weights [[1]], bias [0], identity
activation, zero initial state — the state `mkCTRNNLayer oneRNG 1 1 (1/2) [1]
idAF "c"` produces. -/
def c3Layer : CTRNNLayer :=
  { layer_name := "c", weight_dim := (1, 1), bias_dim := 1, time_dim := 1,
    weight_matrix := [[1]], bias_vector := [0], time_interval := 1/2,
    time_constant := [1], time_weight := [1/2], activation_function := idAF,
    previous_output := [0] }

/-- Concrete CTRNN spec for the C5 counterexample: the generation loop of
`_construct_layers` has no CTRNN branch. -/
def c5CtrnnSpec : LayerSpec :=
  { name := "A", size := 2, kind := .CTRNN, activation := idAF, sensor_tag := "",
    outputs := ["B"], delayed_outputs := [] }

/-- Concrete specs for the C6 counterexample: one input layer named L of size
3 whose sensor tag is S. -/
def c6Specs : List LayerSpec :=
  [ { name := "L", size := 3, kind := .STATIC, activation := idAF, sensor_tag := "S",
      outputs := ["OUT"], delayed_outputs := [] } ]

/-- Concrete sensor dictionary for the C6 counterexample: it has an entry for
the tag S but none for the layer name L. -/
def c6Dict : List (String × List ℚ) :=
  [("S", [5, 6, 7])]

/-- Concrete specs for the C9 counterexample: layers named A and B (not
`layer_0`, `layer_1`), A an input layer feeding B, B feeding the sink OUT. -/
def c9Specs : List LayerSpec :=
  [ { name := "A", size := 1, kind := .STATIC, activation := idAF, sensor_tag := "",
      outputs := ["B"], delayed_outputs := [] },
    { name := "B", size := 1, kind := .STATIC, activation := idAF, sensor_tag := "",
      outputs := ["OUT"], delayed_outputs := [] } ]

/-- Concrete specs for the C9 witness: the same two-layer chain with the
`layer_<index>` names the source assumes. -/
def c9GoodSpecs : List LayerSpec :=
  [ { name := "layer_0", size := 1, kind := .STATIC, activation := idAF, sensor_tag := "",
      outputs := ["layer_1"], delayed_outputs := [] },
    { name := "layer_1", size := 1, kind := .STATIC, activation := idAF, sensor_tag := "",
      outputs := ["OUT"], delayed_outputs := [] } ]

/-- The empty network state, used only as the impossible fallback when
destructuring an `Except` that is provably `ok`. -/
def emptyANN : ANN :=
  { number_of_layers := 0, order_of_execution := [],
    conns := { neuron_map := [], output_connections := [], input_connections := [] },
    layer_map := [], input_layers := [], level_zero := [], output_layers := [] }

/-- The network the C9 witness runs on. -/
def c9GoodAnn : ANN :=
  match constructLayers zeroRNG c9GoodSpecs with
  | .ok ann => ann
  | .error _ => emptyANN

/-- Concrete DYNAMIC spec used by the C5 witness. -/
def dynSpec : LayerSpec :=
  { name := "D", size := 1, kind := .DYNAMIC, activation := idAF, sensor_tag := "",
    outputs := ["OUT"], delayed_outputs := [] }

/-- The input layer of `c6Specs`. -/
def c6Layer : LayerSpec :=
  { name := "L", size := 3, kind := .STATIC, activation := idAF, sensor_tag := "S",
    outputs := ["OUT"], delayed_outputs := [] }

/-- Probe StaticLayer shared by the C7 and C8 theorems: 1 input, 1 output, so
`update_parameters` would need exactly 1 + 1 + 2 = 4 values. -/
def probeStaticLayer : StaticLayer :=
  mkStaticLayer zeroRNG 1 1 idAF "s"

/-- Probe CTRNN layer for the C8 theorem: `update_parameters` would need
exactly 1 + 1 + 1 + 2 = 5 values. -/
def probeCtrnnLayer : CTRNNLayer :=
  { layer_name := "c8", weight_dim := (1, 1), bias_dim := 1, time_dim := 1,
    weight_matrix := [[1]], bias_vector := [0], time_interval := 1/2,
    time_constant := [1], time_weight := [1/2], activation_function := idAF,
    previous_output := [0] }

/-- Probe DynamicLayer for the C7 theorem. -/
def probeDynamicLayer : DynamicLayer :=
  { layer_name := "d", weight_dim := (1, 1), bias_dim := 1,
    weight_matrix := [[1]], bias_vector := [0],
    delay_system := mkTimeDelay zeroRNG 1 1,
    recurrent_system := [], activation_function := idAF }

/-! ## Helper lemmas -/

theorem getD_map {α β : Type} (f : α → β) (d1 : α) (d2 : β) :
    ∀ (l : List α) (j : Nat), j < l.length → (l.map f).getD j d2 = f (l.getD j d1)
  | a :: t, 0, _ => rfl
  | a :: t, j + 1, h => getD_map f d1 d2 t j (Nat.lt_of_succ_lt_succ h)
  | [], j, h => absurd h (Nat.not_lt_zero j)

theorem getD_zipWith {α β γ : Type} (f : α → β → γ) (d1 : α) (d2 : β) (d3 : γ) :
    ∀ (a : List α) (b : List β) (j : Nat), j < a.length → j < b.length →
      (List.zipWith f a b).getD j d3 = f (a.getD j d1) (b.getD j d2)
  | x :: xs, y :: ys, 0, _, _ => rfl
  | x :: xs, y :: ys, j + 1, h1, h2 =>
    getD_zipWith f d1 d2 d3 xs ys j (Nat.lt_of_succ_lt_succ h1) (Nat.lt_of_succ_lt_succ h2)
  | [], _, j, h1, _ => absurd h1 (Nat.not_lt_zero j)
  | _ :: _, [], j, _, h2 => absurd h2 (Nat.not_lt_zero j)

theorem getD_zipWith3Q (f : ℚ → ℚ → ℚ → ℚ) (d : ℚ) :
    ∀ (a b c : List ℚ) (j : Nat), j < a.length → j < b.length → j < c.length →
      (zipWith3Q f a b c).getD j d = f (a.getD j d) (b.getD j d) (c.getD j d)
  | x :: xs, y :: ys, z :: zs, 0, _, _, _ => rfl
  | x :: xs, y :: ys, z :: zs, j + 1, h1, h2, h3 =>
    getD_zipWith3Q f d xs ys zs j (Nat.lt_of_succ_lt_succ h1) (Nat.lt_of_succ_lt_succ h2)
      (Nat.lt_of_succ_lt_succ h3)
  | [], _, _, j, h1, _, _ => absurd h1 (Nat.not_lt_zero j)
  | _ :: _, [], _, j, _, h2, _ => absurd h2 (Nat.not_lt_zero j)
  | _ :: _, _ :: _, [], j, _, _, h3 => absurd h3 (Nat.not_lt_zero j)

theorem length_zipWith3Q (f : ℚ → ℚ → ℚ → ℚ) :
    ∀ (a b c : List ℚ), a.length = b.length → a.length = c.length →
      (zipWith3Q f a b c).length = a.length
  | [], [], [], _, _ => rfl
  | x :: xs, y :: ys, z :: zs, hb, hc => by
    have := length_zipWith3Q f xs ys zs (Nat.succ_injective hb) (Nat.succ_injective hc)
    simpa [zipWith3Q] using this
  | [], y :: ys, _, hb, _ => absurd hb (by simp)
  | [], [], z :: zs, _, hc => absurd hc (by simp)
  | x :: xs, [], _, hb, _ => absurd hb (by simp)
  | x :: xs, y :: ys, [], _, hc => absurd hc (by simp)

theorem dotProd_zeros : ∀ (row : List ℚ) (n : Nat), dotProd row (zeros n) = 0
  | [], _ => rfl
  | _ :: _, 0 => rfl
  | x :: xs, n + 1 => by
    have ih := dotProd_zeros xs n
    simp only [dotProd, zeros, List.replicate_succ, List.zipWith_cons_cons,
      List.sum_cons, mul_zero, zero_add] at ih ⊢
    exact ih

theorem matVec_zeros : ∀ (m : List (List ℚ)) (n : Nat),
    matVec m (zeros n) = List.replicate m.length 0
  | [], _ => rfl
  | row :: rest, n => by
    have ih := matVec_zeros rest n
    simp only [matVec] at ih
    simp [matVec, dotProd_zeros, ih, List.replicate_succ]

theorem alFind_alInsert_self {α : Type} (m : List (String × α)) (k : String) (v : α) :
    alFind (alInsert m k v) k = some v := by
  induction m with
  | nil => simp [alInsert, alFind]
  | cons p rest ih =>
    by_cases h : p.1 = k
    · simp [alInsert, alFind, h]
    · simp [alInsert, alFind, h, ih]

theorem alFind_alInsert_ne {α : Type} (m : List (String × α)) (k q : String) (v : α)
    (h : q ≠ k) : alFind (alInsert m k v) q = alFind m q := by
  induction m with
  | nil => simp [alInsert, alFind, Ne.symm h]
  | cons p rest ih =>
    by_cases hp : p.1 = k
    · subst hp
      simp [alInsert, alFind, Ne.symm h]
    · simp [alInsert, alFind, hp, ih]

theorem getD_map_of_lt {α β : Type} {f : α → β} {l : List α} {j : Nat}
    (d1 : α) (d2 : β) (h : j < l.length) : (l.map f).getD j d2 = f (l.getD j d1) :=
  getD_map f d1 d2 l j h

theorem getD_zipWith_of_lt {α β γ : Type} {f : α → β → γ} {a : List α} {b : List β}
    {j : Nat} (d1 : α) (d2 : β) (d3 : γ) (ha : j < a.length) (hb : j < b.length) :
    (List.zipWith f a b).getD j d3 = f (a.getD j d1) (b.getD j d2) :=
  getD_zipWith f d1 d2 d3 a b j ha hb

theorem getD_zipWith3Q_of_lt {f : ℚ → ℚ → ℚ → ℚ} {a b c : List ℚ} {j : Nat} (d : ℚ)
    (ha : j < a.length) (hb : j < b.length) (hc : j < c.length) :
    (zipWith3Q f a b c).getD j d = f (a.getD j d) (b.getD j d) (c.getD j d) :=
  getD_zipWith3Q f d a b c j ha hb hc

/-! ## C2 -/

/-- C2: for every StaticLayer with weight matrix W of shape (o, i) and bias
vector b of length o, and every input vector x of length i,
`forward_propagate x` succeeds with `activation(W.x + b)`: the result has
length o and its j-th coordinate is the activation function applied (with the
current gain and bias parameters) to `dot(row j of W, x) + b j`. -/
theorem C2_static_forward (l : StaticLayer) (x : List ℚ)
    (hW : l.weight_matrix.length = l.weight_dim.1)
    (hrow : ∀ row ∈ l.weight_matrix, row.length = l.weight_dim.2)
    (hb : l.bias_vector.length = l.weight_dim.1)
    (hx : x.length = l.weight_dim.2) :
    l.forward_propagate x =
      Except.ok (l.activation_function.calculate_activation
        (vecAdd (matVec l.weight_matrix x) l.bias_vector)) ∧
    ∀ y, l.forward_propagate x = Except.ok y →
      y.length = l.weight_dim.1 ∧
      ∀ j, j < l.weight_dim.1 →
        y.getD j 0 =
          l.activation_function.fn l.activation_function.beta l.activation_function.theta
            (dotProd (l.weight_matrix.getD j []) x + l.bias_vector.getD j 0) := by
  have hok : l.forward_propagate x =
      Except.ok (l.activation_function.calculate_activation
        (vecAdd (matVec l.weight_matrix x) l.bias_vector)) := by
    simp [StaticLayer.forward_propagate, hx]
  refine ⟨hok, ?_⟩
  intro y hy
  rw [hok] at hy
  have hyeq := Except.ok.inj hy
  subst hyeq
  have hlen1 : (vecAdd (matVec l.weight_matrix x) l.bias_vector).length = l.weight_dim.1 := by
    simp only [vecAdd, List.length_zipWith, matVec, List.length_map, hW, hb, Nat.min_self]
  constructor
  · simp only [ActivationFunction.calculate_activation, List.length_map, hlen1]
  · intro j hj
    have h1 : j < (vecAdd (matVec l.weight_matrix x) l.bias_vector).length := by
      rw [hlen1]; exact hj
    have h2 : j < (matVec l.weight_matrix x).length := by
      simp only [matVec, List.length_map, hW]; exact hj
    have h3 : j < l.bias_vector.length := by rw [hb]; exact hj
    have h4 : j < l.weight_matrix.length := by rw [hW]; exact hj
    simp only [ActivationFunction.calculate_activation]
    rw [getD_map_of_lt 0 0 h1]
    simp only [vecAdd]
    rw [getD_zipWith_of_lt 0 0 0 h2 h3]
    simp only [matVec]
    rw [getD_map_of_lt [] 0 h4]

/-- Witness for C2 at a concrete layer (weights [[1, 1]], bias [0], identity
activation) and the input [3, 4]. -/
theorem C2_static_forward_witness :
    c2Layer.forward_propagate [3, 4] =
      Except.ok (c2Layer.activation_function.calculate_activation
        (vecAdd (matVec c2Layer.weight_matrix [3, 4]) c2Layer.bias_vector)) ∧
    ∀ y, c2Layer.forward_propagate [3, 4] = Except.ok y →
      y.length = c2Layer.weight_dim.1 ∧
      ∀ j, j < c2Layer.weight_dim.1 →
        y.getD j 0 =
          c2Layer.activation_function.fn c2Layer.activation_function.beta
            c2Layer.activation_function.theta
            (dotProd (c2Layer.weight_matrix.getD j []) [3, 4] +
              c2Layer.bias_vector.getD j 0) :=
  C2_static_forward c2Layer [3, 4] (by decide) (by decide) (by decide) (by decide)

/-! ## C3 -/

/-- C3: `euler_step x` computes `activated = activation(W.x + b)` and returns
`previous_output * (1 - time_weight) + activated * time_weight`, storing that
result as the previous output of the next call (first conjunct, pointwise);
in particular the concrete one-neuron layer with time constants [1], time
interval 1/2 (so time weight [1/2]), identity activation, W = [[1]], b = [0]
— exactly what `mkCTRNNLayer` produces for those arguments — returns 1 on the
first call with input [2], stores it, and returns 3/2 on the second call with
input [2]. -/
theorem C3_ctrnn_euler :
    (∀ (l : CTRNNLayer) (x : List ℚ),
      l.weight_matrix.length = l.weight_dim.1 →
      l.bias_vector.length = l.weight_dim.1 →
      l.previous_output.length = l.weight_dim.1 →
      l.time_weight.length = l.weight_dim.1 →
      x.length = l.weight_dim.2 →
      l.euler_step x =
        Except.ok (l.eulerOut x, { l with previous_output := l.eulerOut x }) ∧
      (l.eulerOut x).length = l.weight_dim.1 ∧
      ∀ j, j < l.weight_dim.1 →
        (l.eulerOut x).getD j 0 =
          l.previous_output.getD j 0 * (1 - l.time_weight.getD j 0) +
          l.activation_function.fn l.activation_function.beta l.activation_function.theta
              (dotProd (l.weight_matrix.getD j []) x + l.bias_vector.getD j 0) *
            l.time_weight.getD j 0) ∧
    (mkCTRNNLayer oneRNG 1 1 (1/2) [1] idAF "c").map
        (fun l => (l.time_weight, l.previous_output, l.weight_matrix, l.bias_vector)) =
      Except.ok ([1/2], [0], [[1]], [0]) ∧
    (c3Layer.euler_step [2]).map Prod.fst = Except.ok [1] ∧
    (c3Layer.euler_step [2]).map (fun r => r.2.previous_output) = Except.ok [1] ∧
    ((c3Layer.euler_step [2]).bind (fun r => r.2.euler_step [2])).map Prod.fst =
      Except.ok [3/2] := by
  refine ⟨?_, ?_, ?_, ?_, ?_⟩
  case refine_2 =>
    norm_num [mkCTRNNLayer, oneRNG, zeros, List.replicate, Except.map]
  case refine_3 =>
    norm_num [c3Layer, CTRNNLayer.euler_step, CTRNNLayer.eulerOut,
      ActivationFunction.calculate_activation, idAF, matVec, vecAdd, dotProd, zipWith3Q,
      Except.map]
  case refine_4 =>
    norm_num [c3Layer, CTRNNLayer.euler_step, CTRNNLayer.eulerOut,
      ActivationFunction.calculate_activation, idAF, matVec, vecAdd, dotProd, zipWith3Q,
      Except.map]
  case refine_5 =>
    norm_num [c3Layer, CTRNNLayer.euler_step, CTRNNLayer.eulerOut,
      ActivationFunction.calculate_activation, idAF, matVec, vecAdd, dotProd, zipWith3Q,
      Except.bind, Except.map]
  case refine_1 =>
  intro l x hW hb hprev htw hx
  have hstep : l.euler_step x =
      Except.ok (l.eulerOut x, { l with previous_output := l.eulerOut x }) := by
    simp [CTRNNLayer.euler_step, hx]
  have hact : (l.activation_function.calculate_activation
      (vecAdd (matVec l.weight_matrix x) l.bias_vector)).length = l.weight_dim.1 := by
    simp only [ActivationFunction.calculate_activation, List.length_map, vecAdd,
      List.length_zipWith, matVec, hW, hb, Nat.min_self]
  have hlen : (l.eulerOut x).length = l.weight_dim.1 := by
    rw [CTRNNLayer.eulerOut,
      length_zipWith3Q _ _ _ _ (hprev.trans htw.symm) (hprev.trans hact.symm), hprev]
  refine ⟨hstep, hlen, ?_⟩
  intro j hj
  have h1 : j < l.previous_output.length := by rw [hprev]; exact hj
  have h2 : j < l.time_weight.length := by rw [htw]; exact hj
  have h3 : j < (l.activation_function.calculate_activation
      (vecAdd (matVec l.weight_matrix x) l.bias_vector)).length := by
    rw [hact]; exact hj
  have h4 : j < (vecAdd (matVec l.weight_matrix x) l.bias_vector).length := by
    simp only [vecAdd, List.length_zipWith, matVec, List.length_map, hW, hb, Nat.min_self]
    exact hj
  have h5 : j < (matVec l.weight_matrix x).length := by
    simp only [matVec, List.length_map, hW]; exact hj
  have h6 : j < l.bias_vector.length := by rw [hb]; exact hj
  have h7 : j < l.weight_matrix.length := by rw [hW]; exact hj
  rw [CTRNNLayer.eulerOut, getD_zipWith3Q_of_lt 0 h1 h2 h3]
  simp only [ActivationFunction.calculate_activation]
  rw [getD_map_of_lt 0 0 h4]
  simp only [vecAdd]
  rw [getD_zipWith_of_lt 0 0 0 h5 h6]
  simp only [matVec]
  rw [getD_map_of_lt [] 0 h7]

/-- Witness for C3: the pointwise characterization instantiated at the
concrete scenario layer and the input [2]. -/
theorem C3_ctrnn_euler_witness :
    c3Layer.euler_step [2] =
      Except.ok (c3Layer.eulerOut [2],
        { c3Layer with previous_output := c3Layer.eulerOut [2] }) ∧
    (c3Layer.eulerOut [2]).length = c3Layer.weight_dim.1 ∧
    ∀ j, j < c3Layer.weight_dim.1 →
      (c3Layer.eulerOut [2]).getD j 0 =
        c3Layer.previous_output.getD j 0 * (1 - c3Layer.time_weight.getD j 0) +
        c3Layer.activation_function.fn c3Layer.activation_function.beta
            c3Layer.activation_function.theta
            (dotProd (c3Layer.weight_matrix.getD j []) [2] + c3Layer.bias_vector.getD j 0) *
          c3Layer.time_weight.getD j 0 :=
  C3_ctrnn_euler.1 c3Layer [2] (by decide) (by decide) (by decide) (by decide) (by decide)

/-! ## C10 -/

/-- C10: a freshly constructed TimeRecurrence with input dimension i and
output dimension o answers `forward_propagate()` (before any
`set_input_vector`) with the zero vector of length o, because the stored
input is initialized to zeros and the output is the weight matrix applied to
the stored input.  The hypothesis is the row count `np.random.rand(o, i)`
guarantees. -/
theorem C10_time_recurrence_fresh (rng : RNG) (input_dim output_dim : Nat)
    (hlen : (rng.mat output_dim input_dim).length = output_dim) :
    (mkTimeRecurrence rng input_dim output_dim).forward_propagate = zeros output_dim := by
  simp only [mkTimeRecurrence, TimeRecurrence.forward_propagate]
  rw [matVec_zeros, hlen, zeros]

/-- Witness for C10 at i = 2, o = 3 with the zero generator. -/
theorem C10_time_recurrence_fresh_witness :
    (mkTimeRecurrence zeroRNG 2 3).forward_propagate = zeros 3 :=
  C10_time_recurrence_fresh zeroRNG 2 3 (by decide)

/-! ## C7 -/

/-- C7 is a code bug: the round trip `return_parameters` then
`update_parameters` cannot reproduce anything, because `update_parameters`
raises `NameError` on every StaticLayer and every CTRNNLayer for every vector
(the unbound `bias_dim` before its `try` block), in particular on the exact
vector `return_parameters` yields; and `DynamicLayer.return_parameters`
returns `None` (it has no `return` statement), so its side of the inverse
ordering does not exist either. -/
theorem C7_roundtrip_never_succeeds :
    (∀ (l : StaticLayer) (pv : List ℚ), l.update_parameters pv = .error .nameError) ∧
    (∀ (l : CTRNNLayer) (pv : List ℚ), l.update_parameters pv = .error .nameError) ∧
    (∀ (d : DynamicLayer), d.return_parameters = none) ∧
    probeStaticLayer.update_parameters probeStaticLayer.return_parameters =
      .error .nameError ∧
    probeDynamicLayer.return_parameters = none :=
  ⟨fun _ _ => rfl, fun _ _ => rfl, fun _ => rfl, rfl, rfl⟩

/-! ## C8 -/

/-- C8 is a code bug: `update_parameters` never raises the documented
shape error for a too-short vector and never succeeds with a warning for a
too-long one; on the probe StaticLayer (4 values required) and probe
CTRNNLayer (5 values required) both a short vector and one 3 elements longer
than required raise `NameError`, from the unbound `bias_dim`. -/
theorem C8_update_parameters_always_name_error :
    probeStaticLayer.return_parameters.length = 4 ∧
    probeStaticLayer.update_parameters [1] = .error .nameError ∧
    probeStaticLayer.update_parameters [1, 2, 3, 4, 5, 6, 7] = .error .nameError ∧
    probeCtrnnLayer.update_parameters [1, 2, 3] = .error .nameError ∧
    probeCtrnnLayer.update_parameters [1, 2, 3, 4, 5, 6, 7, 8] = .error .nameError :=
  ⟨rfl, rfl, rfl, rfl, rfl⟩

/-! ## C1 -/

/-- C1 is a code bug, evaluated here at the concrete failing network
`c1Specs` (A feeds X and Y; X has a non-delayed self-loop).  The build
terminates without raising, but: X is assigned BOTH level 1 and level 2 (the
deadlock-resolution block re-queues the already-done X because it lacks the
`layers_done` guard of the main path); X is generated twice while Y — whose
inputs were all resolved — is never generated at all (it was skipped because
the shared `new_error_queue` was non-empty, then dropped), and the outer loop
still exits because the generation counter double-counts X.  The only
deadlock-resolved edge is the self-loop (X, X). -/
theorem C1_graph_builder_double_level :
    (buildNetworkGraph zeroRNG c1Specs 10).map
        (fun st => (st.level_vector, st.output_matrix, st.layers_generated,
          st.resolved_edges)) =
      Except.ok ([["A"], ["X", "Y"], ["X"]], ["A", "X"], 3, [("X", "X")]) := by
  rfl

/-! ## C4 -/

/-- C4 is a code bug, evaluated at a sink with two contributors of EQUAL
dimension 1 (outputs [2] and [3], so the element-wise sum would be [5]): the
assembly raises the configuration error anyway, because the second
contributor reaches `np.sum(output_vector, output[...])`, which passes the
second array as the `axis` argument (`np.add` was intended) and raises; a
single contributor is passed through unchanged. -/
theorem C4_terminal_sum_config_error :
    assembleTerminalOutputs ["OUT"] [("OUT", [("L1", false), ("L2", false)])]
        [("L1", [2]), ("L2", [3])] = .error (.configError "OUT") ∧
    assembleTerminalOutputs ["OUT"] [("OUT", [("L1", false)])] [("L1", [2])] =
      .ok [("OUT", some [2])] := by
  exact ⟨by rfl, by rfl⟩

/-! ## C5 -/

/-- Counterexample to C5: network construction on a single CTRNN spec
succeeds but instantiates NO layer at all — `layer_map` is empty and the
declared layer A is not even classified as an input layer — because the
generation loop of `_construct_layers` only has branches for STATIC and
DYNAMIC. -/
theorem C5_counterexample :
    (constructLayers zeroRNG [c5CtrnnSpec]).map
        (fun ann => (ann.layer_map.map Prod.fst, ann.input_layers, ann.output_layers)) =
      Except.ok ([], [], ["B"]) := by
  rfl

/-! ## C6 -/

/-- Counterexample to C6: for the input layer named L (declared size 3, sensor
tag S), with a sensor mapping in which the NAME L is absent but the tag S is
present, the executor feeds [5, 6, 7] — not the zero vector the claim
prescribes for a layer whose name is missing — because the lookup key is the
sensor tag, not the layer name. -/
theorem C6_counterexample :
    alFind (gatherSensorInputs c6Specs c6Dict) "L" = some [5, 6, 7] ∧
    alFind c6Dict "L" = none ∧
    some [5, 6, 7] ≠ some (zeros 3) := by
  refine ⟨by rfl, by rfl, ?_⟩
  simp [zeros]

/-- C6 as amended: the sensor lookup is keyed by the sensor tag of the layer
(index 4 of the spec), not by its name; for every declared layer whose sensor
tag is missing from the per-tick mapping — input layer or not — the executor
uses the zero vector of the declared size of the layer, and the collection is
total (it never raises). -/
theorem C6_amended (specs : List LayerSpec) (input_dict : List (String × List ℚ))
    (layer : LayerSpec) (hmem : layer ∈ specs)
    (hmiss : alFind input_dict layer.sensor_tag = none) :
    (layer.name, zeros layer.size) ∈ gatherSensorInputs specs input_dict := by
  unfold gatherSensorInputs
  refine List.mem_map.mpr ⟨layer, hmem, ?_⟩
  rw [hmiss]

/-- Witness for C6 as amended: the layer L of `c6Specs` against a sensor
mapping that contains neither its tag nor its name. -/
theorem C6_amended_witness :
    ("L", zeros 3) ∈ gatherSensorInputs c6Specs [("T", [1])] :=
  C6_amended c6Specs [("T", [1])] c6Layer (List.mem_singleton.mpr rfl) (by rfl)

/-! ## C9 -/

/-- Counterexample to C9: on the two-layer network `c9Specs` (input layer A
feeding B, B feeding the sink OUT) the claim promises a mapping covering the
non-input layer B; instead the call raises `KeyError`, because the loop looks
up the fabricated name `layer_0`, which is not a key of `layer_map`. -/
theorem C9_counterexample :
    (constructLayers zeroRNG c9Specs).bind return_parameters_as_vector =
      .error .keyError ∧
    (constructLayers zeroRNG c9Specs).map (fun ann => ann.input_layers) = .ok ["A"] ∧
    (constructLayers zeroRNG c9Specs).map (fun ann => ann.layer_map.map Prod.fst) =
      .ok ["A", "B"] := by
  refine ⟨by rfl, by rfl, by rfl⟩

theorem genStepStatic_layer_map (rng : RNG) (cs : Conns) (layer : LayerSpec)
    (acc : LayerGen) :
    (genStepStatic rng cs layer acc).layer_map =
      alInsert acc.layer_map layer.name
        (mkStaticLayer rng (staticInputInfo cs layer.name layer.size).1 layer.size
          layer.activation layer.name) := by
  by_cases h : (staticInputInfo cs layer.name layer.size).2 <;> simp [genStepStatic, h]

theorem genStepStatic_input_layers (rng : RNG) (cs : Conns) (layer : LayerSpec)
    (acc : LayerGen) (n : String) (hn : n ∈ acc.input_layers) :
    n ∈ (genStepStatic rng cs layer acc).input_layers := by
  by_cases h : (staticInputInfo cs layer.name layer.size).2 <;> simp [genStepStatic, h, hn]

theorem genStepStatic_level_zero (rng : RNG) (cs : Conns) (layer : LayerSpec)
    (acc : LayerGen) (n : String) (hn : n ∈ acc.level_zero) :
    n ∈ (genStepStatic rng cs layer acc).level_zero := by
  by_cases h : (staticInputInfo cs layer.name layer.size).2 <;> simp [genStepStatic, h, hn]

theorem genStepStatic_input_layers_self (rng : RNG) (cs : Conns) (layer : LayerSpec)
    (acc : LayerGen) (h : (staticInputInfo cs layer.name layer.size).2 = true) :
    layer.name ∈ (genStepStatic rng cs layer acc).input_layers ∧
    layer.name ∈ (genStepStatic rng cs layer acc).level_zero := by
  constructor <;> simp [genStepStatic, h]

theorem genLayers_alFind_of_not_mem (rng : RNG) (cs : Conns) :
    ∀ (specs : List LayerSpec) (acc g : LayerGen) (k : String),
      genLayers rng cs specs acc = .ok g →
      k ∉ specs.map LayerSpec.name →
      alFind g.layer_map k = alFind acc.layer_map k := by
  intro specs
  induction specs with
  | nil =>
    intro acc g k h _
    have := Except.ok.inj (h.symm.trans rfl).symm
    simp only [genLayers] at h
    have hg := Except.ok.inj h
    rw [hg]
  | cons layer rest ih =>
    intro acc g k h hk
    have hk1 : k ∉ rest.map LayerSpec.name := fun hx => hk (by simp [hx])
    have hk2 : k ≠ layer.name := fun hx => hk (by simp [hx])
    cases hkind : layer.kind with
    | STATIC =>
      simp only [genLayers, hkind] at h
      rw [ih _ g k h hk1, genStepStatic_layer_map, alFind_alInsert_ne _ _ _ _ hk2]
    | DYNAMIC =>
      simp only [genLayers, hkind] at h
      exact Except.noConfusion h
    | CTRNN =>
      simp only [genLayers, hkind] at h
      exact ih _ g k h hk1
    | RBF =>
      simp only [genLayers, hkind] at h
      exact ih _ g k h hk1

theorem genLayers_mono (rng : RNG) (cs : Conns) :
    ∀ (specs : List LayerSpec) (acc g : LayerGen),
      genLayers rng cs specs acc = .ok g →
      (∀ n, n ∈ acc.input_layers → n ∈ g.input_layers) ∧
      (∀ n, n ∈ acc.level_zero → n ∈ g.level_zero) := by
  intro specs
  induction specs with
  | nil =>
    intro acc g h
    simp only [genLayers] at h
    have hg := Except.ok.inj h
    rw [← hg]
    exact ⟨fun _ hn => hn, fun _ hn => hn⟩
  | cons layer rest ih =>
    intro acc g h
    cases hkind : layer.kind with
    | STATIC =>
      simp only [genLayers, hkind] at h
      have hih := ih _ g h
      exact ⟨fun n hn => hih.1 n (genStepStatic_input_layers rng cs layer acc n hn),
        fun n hn => hih.2 n (genStepStatic_level_zero rng cs layer acc n hn)⟩
    | DYNAMIC =>
      simp only [genLayers, hkind] at h
      exact Except.noConfusion h
    | CTRNN =>
      simp only [genLayers, hkind] at h
      exact ih _ g h
    | RBF =>
      simp only [genLayers, hkind] at h
      exact ih _ g h

theorem genLayers_static_total (rng : RNG) (cs : Conns) :
    ∀ (specs : List LayerSpec) (acc : LayerGen),
      (∀ s ∈ specs, s.kind = Kind.STATIC) →
      (specs.map LayerSpec.name).Nodup →
      ∃ g, genLayers rng cs specs acc = .ok g ∧
        ∀ s ∈ specs,
          alFind g.layer_map s.name =
            some (mkStaticLayer rng (staticInputInfo cs s.name s.size).1 s.size
              s.activation s.name) ∧
          ((staticInputInfo cs s.name s.size).2 = true →
            s.name ∈ g.input_layers ∧ s.name ∈ g.level_zero) := by
  intro specs
  induction specs with
  | nil =>
    intro acc _ _
    exact ⟨acc, rfl, by simp⟩
  | cons layer rest ih =>
    intro acc hstatic hnodup
    have hlk : layer.kind = Kind.STATIC := hstatic layer (by simp)
    have hnodup1 : (rest.map LayerSpec.name).Nodup := by
      simp only [List.map_cons, List.nodup_cons] at hnodup
      exact hnodup.2
    have hnot : layer.name ∉ rest.map LayerSpec.name := by
      simp only [List.map_cons, List.nodup_cons] at hnodup
      exact hnodup.1
    obtain ⟨g, hg, hrest⟩ := ih (genStepStatic rng cs layer acc)
      (fun s hs => hstatic s (by simp [hs])) hnodup1
    refine ⟨g, ?_, ?_⟩
    · simp only [genLayers, hlk]
      exact hg
    · intro s hs
      rcases List.mem_cons.mp hs with heq | hmem
      · subst heq
        constructor
        · rw [genLayers_alFind_of_not_mem rng cs rest _ g s.name hg hnot,
            genStepStatic_layer_map]
          exact alFind_alInsert_self _ _ _
        · intro hinfo
          have hmono := genLayers_mono rng cs rest _ g hg
          have hself := genStepStatic_input_layers_self rng cs s acc hinfo
          exact ⟨hmono.1 s.name hself.1, hmono.2 s.name hself.2⟩
      · exact hrest s hmem

theorem genLayers_dynamic (rng : RNG) (cs : Conns) :
    ∀ (specs : List LayerSpec) (acc : LayerGen),
      (∃ s ∈ specs, s.kind = Kind.DYNAMIC) →
      genLayers rng cs specs acc = .error .typeError := by
  intro specs
  induction specs with
  | nil =>
    intro acc h
    rcases h with ⟨s, hs, _⟩
    exact absurd hs (List.not_mem_nil s)
  | cons layer rest ih =>
    intro acc h
    cases hkind : layer.kind with
    | DYNAMIC => simp only [genLayers, hkind]
    | STATIC =>
      simp only [genLayers, hkind]
      apply ih
      rcases h with ⟨s, hs, hd⟩
      rcases List.mem_cons.mp hs with heq | hmem
      · subst heq
        rw [hkind] at hd
        exact absurd hd (by simp)
      · exact ⟨s, hmem, hd⟩
    | CTRNN =>
      simp only [genLayers, hkind]
      apply ih
      rcases h with ⟨s, hs, hd⟩
      rcases List.mem_cons.mp hs with heq | hmem
      · subst heq
        rw [hkind] at hd
        exact absurd hd (by simp)
      · exact ⟨s, hmem, hd⟩
    | RBF =>
      simp only [genLayers, hkind]
      apply ih
      rcases h with ⟨s, hs, hd⟩
      rcases List.mem_cons.mp hs with heq | hmem
      · subst heq
        rw [hkind] at hd
        exact absurd hd (by simp)
      · exact ⟨s, hmem, hd⟩

/-- C5 as amended: only STATIC specs yield a concrete layer instance.  For a
network whose specs (with pairwise distinct names) are all STATIC,
construction succeeds and binds every spec name in `layer_map` to a
StaticLayer whose input dimension is the sum of the sizes of its upstream
sources in declaration order — or the size of the spec when it has no upstream
entry, in which case the layer is recorded as an input layer and placed in
level 0 (`staticInputInfo` is exactly that computation).  A network containing
any DYNAMIC spec fails construction with the `TypeError` raised by the
mismatched `DynamicLayer(...)` constructor call; CTRNN and RBF specs are
silently skipped (see the counterexample). -/
theorem C5_amended :
    (∀ (rng : RNG) (specs : List LayerSpec),
      (∀ s ∈ specs, s.kind = Kind.STATIC) →
      (specs.map LayerSpec.name).Nodup →
      ∃ ann, constructLayers rng specs = .ok ann ∧
        ∀ s ∈ specs,
          alFind ann.layer_map s.name =
            some (mkStaticLayer rng
              (staticInputInfo (buildConnections specs) s.name s.size).1 s.size
              s.activation s.name) ∧
          ((staticInputInfo (buildConnections specs) s.name s.size).2 = true →
            s.name ∈ ann.input_layers ∧ s.name ∈ ann.level_zero)) ∧
    (∀ (rng : RNG) (specs : List LayerSpec),
      (∃ s ∈ specs, s.kind = Kind.DYNAMIC) →
      constructLayers rng specs = .error .typeError) := by
  constructor
  · intro rng specs hstatic hnodup
    obtain ⟨g, hg, hprop⟩ := genLayers_static_total rng (buildConnections specs) specs
      { layer_map := [], input_layers := [], level_zero := [] } hstatic hnodup
    refine ⟨{ number_of_layers := specs.length, order_of_execution := specs,
              conns := buildConnections specs, layer_map := g.layer_map,
              input_layers := g.input_layers, level_zero := g.level_zero,
              output_layers := ((buildConnections specs).input_connections.map
                  Prod.fst).filter
                (fun k => !(alMem (buildConnections specs).output_connections k)) },
      ?_, ?_⟩
    · simp only [constructLayers]
      rw [hg]
    · exact hprop
  · intro rng specs hdyn
    have h := genLayers_dynamic rng (buildConnections specs) specs
      { layer_map := [], input_layers := [], level_zero := [] } hdyn
    simp only [constructLayers]
    rw [h]

/-- Witness for C5 as amended: the all-STATIC two-layer network `c9Specs`
(the conclusion instantiated there), and a one-spec DYNAMIC network whose
construction raises `TypeError`. -/
theorem C5_amended_witness :
    (∃ ann, constructLayers zeroRNG c9Specs = .ok ann ∧
      ∀ s ∈ c9Specs,
        alFind ann.layer_map s.name =
          some (mkStaticLayer zeroRNG
            (staticInputInfo (buildConnections c9Specs) s.name s.size).1 s.size
            s.activation s.name) ∧
        ((staticInputInfo (buildConnections c9Specs) s.name s.size).2 = true →
          s.name ∈ ann.input_layers ∧ s.name ∈ ann.level_zero)) ∧
    constructLayers zeroRNG [dynSpec] = .error .typeError :=
  ⟨C5_amended.1 zeroRNG c9Specs (by decide) (by decide),
   C5_amended.2 zeroRNG [dynSpec] ⟨dynSpec, List.mem_singleton.mpr rfl, rfl⟩⟩

theorem rpavLoop_total (ann : ANN) :
    ∀ (idxs : List Nat) (acc : List (String × List ℚ)),
      (∀ i ∈ idxs, ("layer_" ++ toString i) ∉ ann.input_layers →
        (alFind ann.layer_map ("layer_" ++ toString i)).isSome) →
      rpavLoop ann idxs acc = .ok (acc ++ idxs.filterMap (fun i =>
        let layer_key := "layer_" ++ toString i
        if layer_key ∈ ann.input_layers then none
        else (alFind ann.layer_map layer_key).map
          (fun l => (layer_key, l.return_parameters)))) := by
  intro idxs
  induction idxs with
  | nil => intro acc _; simp [rpavLoop]
  | cons i rest ih =>
    intro acc h
    by_cases hil : ("layer_" ++ toString i) ∈ ann.input_layers
    · simp only [rpavLoop, hil, if_pos, List.filterMap_cons]
      rw [ih acc (fun j hj => h j (List.mem_cons_of_mem _ hj))]
    · have hsome := h i (List.mem_cons_self i rest) hil
      obtain ⟨l, hl⟩ := Option.isSome_iff_exists.mp hsome
      simp only [rpavLoop, hil, if_neg, hl, List.filterMap_cons]
      have hrec := ih (acc ++ [("layer_" ++ toString i, l.return_parameters)])
        (fun j hj => h j (List.mem_cons_of_mem _ hj))
      rw [hrec, List.append_assoc]
      simp

/-- C9 as amended: `return_parameters_as_vector` looks up the fabricated
names `layer_<index>`; ASSUMING every such non-input name is a key of
`layer_map` (which holds exactly when the layers are named by their position,
as every caller in the repository does), the call succeeds with one entry per
non-input `layer_<index>` name, valued at the `return_parameters()` of that layer,
and covers every non-input layer. -/
theorem C9_amended (ann : ANN)
    (h : ∀ i, i < ann.number_of_layers →
      ("layer_" ++ toString i) ∉ ann.input_layers →
      (alFind ann.layer_map ("layer_" ++ toString i)).isSome) :
    return_parameters_as_vector ann = .ok (expectedParamsMap ann) ∧
    ∀ i, i < ann.number_of_layers →
      ("layer_" ++ toString i) ∉ ann.input_layers →
      ∃ l, alFind ann.layer_map ("layer_" ++ toString i) = some l ∧
        ("layer_" ++ toString i, l.return_parameters) ∈ expectedParamsMap ann := by
  constructor
  · rw [return_parameters_as_vector,
      rpavLoop_total ann (List.range ann.number_of_layers) []
        (fun i hi => h i (List.mem_range.mp hi))]
    simp [expectedParamsMap]
  · intro i hi hil
    obtain ⟨l, hl⟩ := Option.isSome_iff_exists.mp (h i hi hil)
    refine ⟨l, hl, ?_⟩
    rw [expectedParamsMap]
    apply List.mem_filterMap.mpr
    refine ⟨i, List.mem_range.mpr hi, ?_⟩
    simp [hil, hl]

/-- Witness for C9 as amended: the two-layer network `c9GoodAnn`, whose
layers are named `layer_0` (input) and `layer_1`. -/
theorem C9_amended_witness :
    return_parameters_as_vector c9GoodAnn = .ok (expectedParamsMap c9GoodAnn) ∧
    ∀ i, i < c9GoodAnn.number_of_layers →
      ("layer_" ++ toString i) ∉ c9GoodAnn.input_layers →
      ∃ l, alFind c9GoodAnn.layer_map ("layer_" ++ toString i) = some l ∧
        ("layer_" ++ toString i, l.return_parameters) ∈ expectedParamsMap c9GoodAnn :=
  C9_amended c9GoodAnn (by decide)
